import Mathlib

/-!
# Verification of the binance-bot order-execution scripts

A shallow embedding, in Lean 4, of the order-execution logic of the
`binance-bot` repository (files `src/market_orders.py`, `src/limit_orders.py`,
`src/validation.py`, `src/advanced/twap.py`, `src/advanced/grid_strategy.py`,
`src/advanced/oco.py`, `src/advanced/stop_limit.py`), together with theorems
settling the specification claims about it.

Modelling conventions:

* Python `decimal.Decimal` values are modelled by their exact rational value
  (`ℚ`).  A `Decimal` is a rational whose denominator is a power of ten, and
  every arithmetic operation of the `decimal` module yields the exact
  mathematical result *correctly rounded to the context precision* (in
  significant digits, default rounding `ROUND_HALF_EVEN`).  The functions
  `decAdd`, `decSub`, `decMul`, `decDiv` below implement exactly that on `ℚ`,
  and `quantizeRD` / `quantizeHE` implement `Decimal.quantize` with rounding
  `ROUND_DOWN` resp. the context default, including the `InvalidOperation`
  signal (modelled as `none`) raised when the resulting coefficient has more
  digits than the context precision.  `twap.py` sets `getcontext().prec = 12`;
  `grid_strategy.py` runs with the default precision 28.
* The exchange client (`binance.client.Client`) is an opaque external service.
  It is modelled by oracle functions giving each call's outcome: `.ok r` is a
  successful response (an opaque response token `r : ℕ`), `.error ()` is an
  exception raised by the call.  Every function of the embedding also returns
  the ordered trace of gateway calls it performed, so "no network call occurs"
  is the trace being `[]`.
* Python dicts returned by the scripts are modelled as ordered association
  lists `List (String × PyVal)`; a `Decimal` stored via `str(...)` is tracked
  by its numeric value (`PyVal.dec`).
* `time.sleep` delays and the log statements are irrelevant to the claims and
  are not modelled.  Unbounded `while True:` polling loops are modelled with a
  fuel parameter; exhausting the fuel yields `none` (the loop still running).
* Python exceptions propagating out of a modelled function are explicit:
  `Option`/`Except`-style `none` / error values, never collapsed with normal
  results.
-/

namespace BinanceBot

/-! ## Python `decimal` arithmetic

`Decimal` values are rationals; context arithmetic rounds every exact result
to `p` significant digits with `ROUND_HALF_EVEN`.  All computations below are
integer-level so that concrete instances evaluate inside the kernel. -/

/-- Number of base-10 digits of `n` (0 for 0), via an explicit fuel so the
recursion is structural. -/
def digLenAux : ℕ → ℕ → ℕ
  | 0, _ => 0
  | fuel + 1, n => if n = 0 then 0 else digLenAux fuel (n / 10) + 1

/-- Number of base-10 digits of `n` (`digitsLen 0 = 0`). -/
def digitsLen (n : ℕ) : ℕ := digLenAux n n

/-- Round `a / b` (with `b > 0`) to the nearest natural number, ties going to
the even candidate: this is `ROUND_HALF_EVEN` on magnitudes. -/
def halfEvenDiv (a b : ℕ) : ℕ :=
  let q := a / b
  let r := a % b
  if 2 * r < b then q
  else if b < 2 * r then q + 1
  else if q % 2 = 0 then q else q + 1

/-- Whether `a / b < 10 ^ e` for naturals `a`, `b > 0` and an integer `e`. -/
def ltPow10 (a b : ℕ) (e : ℤ) : Bool :=
  match e with
  | .ofNat k => a < b * 10 ^ k
  | .negSucc k => a * 10 ^ (k + 1) < b

/-- The magnitude exponent of `a / b` (for `a, b ≥ 1`): the unique `e` with
`10 ^ (e - 1) ≤ a / b < 10 ^ e`. -/
def magExp (a b : ℕ) : ℤ :=
  let e0 : ℤ := (digitsLen a : ℤ) - (digitsLen b : ℤ)
  if ltPow10 a b e0 then e0 else e0 + 1

/-- The rational `c / 10 ^ s` for an integer scale `s`. -/
def scaleQ (c : ℤ) (s : ℤ) : ℚ :=
  match s with
  | .ofNat k => mkRat c (10 ^ k)
  | .negSucc k => ((c * 10 ^ (k + 1) : ℤ) : ℚ)

/-- Round the rational `n / d` (`d ≠ 0`) to `p` significant digits with
`ROUND_HALF_EVEN`: the rounding the `decimal` context applies to every
arithmetic result.  Results that already fit in `p` digits are unchanged. -/
def decRoundInt (p : ℕ) (n d : ℤ) : ℚ :=
  if n = 0 then 0
  else
    let a := n.natAbs
    let b := d.natAbs
    let e := magExp a b
    let sc : ℤ := (p : ℤ) - e
    let c : ℕ :=
      match sc with
      | .ofNat k => halfEvenDiv (a * 10 ^ k) b
      | .negSucc k => halfEvenDiv a (b * 10 ^ (k + 1))
    let sgn : ℤ := if 0 ≤ n * d then 1 else -1
    scaleQ (sgn * c) sc

/-- Context addition: exact sum, rounded to `p` significant digits. -/
def decAdd (p : ℕ) (x y : ℚ) : ℚ :=
  decRoundInt p (x.num * (y.den : ℤ) + y.num * (x.den : ℤ)) ((x.den : ℤ) * (y.den : ℤ))

/-- Context subtraction: exact difference, rounded to `p` significant digits. -/
def decSub (p : ℕ) (x y : ℚ) : ℚ :=
  decRoundInt p (x.num * (y.den : ℤ) - y.num * (x.den : ℤ)) ((x.den : ℤ) * (y.den : ℤ))

/-- Context multiplication: exact product, rounded to `p` significant digits. -/
def decMul (p : ℕ) (x y : ℚ) : ℚ :=
  decRoundInt p (x.num * y.num) ((x.den : ℤ) * (y.den : ℤ))

/-- Context division: exact quotient, correctly rounded to `p` significant
digits (`y ≠ 0`; the `y = 0` case is handled by the callers, since the
`decimal` module raises `DivisionByZero` there). -/
def decDiv (p : ℕ) (x y : ℚ) : ℚ :=
  decRoundInt p (x.num * (y.den : ℤ)) ((x.den : ℤ) * y.num)

/-- `x.quantize(Decimal("1e-dp"), rounding=ROUND_DOWN)` under context
precision `prec`: round toward zero to `dp` decimal places; `none` models the
`InvalidOperation` raised when the resulting coefficient has more than `prec`
digits. -/
def quantizeRD (dp prec : ℕ) (x : ℚ) : Option ℚ :=
  let c : ℕ := x.num.natAbs * 10 ^ dp / x.den
  if prec < digitsLen c then none
  else some (mkRat (if 0 ≤ x.num then (c : ℤ) else -(c : ℤ)) (10 ^ dp))

/-- `x.quantize(Decimal("1.00"))`-style quantization to `dp` decimal places
with the context default rounding `ROUND_HALF_EVEN`, under context precision
`prec`; `none` models `InvalidOperation` as in `quantizeRD`. -/
def quantizeHE (dp prec : ℕ) (x : ℚ) : Option ℚ :=
  let c : ℕ := halfEvenDiv (x.num.natAbs * 10 ^ dp) x.den
  if prec < digitsLen c then none
  else some (mkRat (if 0 ≤ x.num then (c : ℤ) else -(c : ℤ)) (10 ^ dp))

/-! ## Result records and the gateway boundary -/

/-- A value stored in one of the scripts' result dictionaries.  A `Decimal`
stored via `str(...)` is tracked by its numeric value. -/
inductive PyVal
  | str : String → PyVal
  | dec : ℚ → PyVal
  | int : ℤ → PyVal
  deriving DecidableEq

/-- A Python dict, as the ordered association list of its entries. -/
abbrev PyDict := List (String × PyVal)

/-- A single strategy result entry: either a synthetic dictionary built by the
script (dry-run or error records) or an opaque exchange response. -/
inductive StratResult
  | dict : PyDict → StratResult
  | resp : ℕ → StratResult
  deriving DecidableEq

/-- One call to the exchange gateway, with the parameters the script passes. -/
inductive GwCall
  | createOrder (symbol side otype : String) (qty : ℚ) (price stopPrice : Option ℚ)
  | queryOrder (symbol : String) (oid : ℕ)
  | cancelOrder (symbol : String) (oid : ℕ)
  | ticker (symbol : String)
  deriving DecidableEq

deriving instance DecidableEq for Except

/-- Python truthiness of an environment variable: `not s` holds when the
variable is unset or the empty string. -/
def falsyEnv : Option String → Bool
  | none => true
  | some s => s = ""

/-- `create_client` (identical in all five scripts): `None` when either
credential is missing or empty, otherwise a client handle. -/
def create_client (apiKey apiSecret : Option String) : Option Unit :=
  if falsyEnv apiKey || falsyEnv apiSecret then none else some ()

/-! ## `market_orders.py` and `limit_orders.py` -/

/-- `place_market_order`: the dry-run branch returns the echo dictionary and
performs no gateway call; the live branch performs one `futures_create_order`
call whose outcome `gw` it returns, re-raising a failure. -/
def place_market_order (client : Option Unit) (gw : Except Unit ℕ)
    (symbol side : String) (qty : ℚ) (dryRun : Bool) :
    Except Unit StratResult × List GwCall :=
  if dryRun || client.isNone then
    (.ok (.dict [("status", .str "DRY_RUN"), ("symbol", .str symbol),
                 ("side", .str side), ("qty", .dec qty)]), [])
  else
    match gw with
    | .ok r => (.ok (.resp r), [.createOrder symbol side "MARKET" qty none none])
    | .error e => (.error e, [.createOrder symbol side "MARKET" qty none none])

/-- `place_limit_order`: like `place_market_order` with a price and
`timeInForce`. -/
def place_limit_order (client : Option Unit) (gw : Except Unit ℕ)
    (symbol side : String) (qty price : ℚ) (dryRun : Bool) :
    Except Unit StratResult × List GwCall :=
  if dryRun || client.isNone then
    (.ok (.dict [("status", .str "DRY_RUN"), ("symbol", .str symbol),
                 ("side", .str side), ("qty", .dec qty), ("price", .dec price)]), [])
  else
    match gw with
    | .ok r => (.ok (.resp r), [.createOrder symbol side "LIMIT" qty (some price) none])
    | .error e => (.error e, [.createOrder symbol side "LIMIT" qty (some price) none])

/-! ## `twap.py` -/

/-- `twap.py` sets `getcontext().prec = 12` at import. -/
def twapPrec : ℕ := 12

/-- Lines 31: `qty_per = (total_qty / Decimal(chunks)).quantize(Decimal("1e-8"),
rounding=ROUND_DOWN)`.  `none` models an exception: `DivisionByZero` for
`chunks = 0`, or `InvalidOperation` from the quantize digit check. -/
def twapQtyPer (total : ℚ) (chunks : ℕ) : Option ℚ :=
  if chunks = 0 then none
  else quantizeRD 8 twapPrec (decDiv twapPrec total ((chunks : ℕ) : ℚ))

/-- Line 32: `remainder = total_qty - (qty_per * Decimal(chunks))`. -/
def twapRemainder (total qtyPer : ℚ) (chunks : ℕ) : ℚ :=
  decSub twapPrec total (decMul twapPrec qtyPer ((chunks : ℕ) : ℚ))

/-- Line 40: `execute_qty = qty_per + (remainder if i == (chunks - 1) else
Decimal("0"))`. -/
def twapChunkQty (qtyPer rem : ℚ) (chunks i : ℕ) : ℚ :=
  decAdd twapPrec qtyPer (if i = chunks - 1 then rem else 0)

/-- The quantities the TWAP loop emits, chunk by chunk. -/
def twapQuantities (total : ℚ) (chunks : ℕ) : Option (List ℚ) :=
  match twapQtyPer total chunks with
  | none => none
  | some q =>
    let r := twapRemainder total q chunks
    some ((List.range chunks).map (twapChunkQty q r chunks))

/-- The dry-run record `{"chunk": i + 1, "status": "DRY_RUN", "qty":
str(execute_qty)}` appended for chunk `i`. -/
def twapDryRec (i : ℕ) (qty : ℚ) : StratResult :=
  .dict [("chunk", .int ((i : ℤ) + 1)), ("status", .str "DRY_RUN"), ("qty", .dec qty)]

/-- The error record `{"chunk": i + 1, "status": "ERROR"}` appended when chunk
`i`'s placement raises. -/
def twapErrRec (i : ℕ) : StratResult :=
  .dict [("chunk", .int ((i : ℤ) + 1)), ("status", .str "ERROR")]

/-- The body of the TWAP loop over the chunk indices `idxs`, accumulating the
per-chunk results and the gateway calls made.  `gw i` is the outcome of chunk
`i`'s `futures_create_order` call. -/
def runTwapLoop (client : Option Unit) (gw : ℕ → Except Unit ℕ)
    (symbol side : String) (q r : ℚ) (chunks : ℕ) (dryRun : Bool) :
    List ℕ → List StratResult × List GwCall
  | [] => ([], [])
  | i :: rest =>
    let qi := twapChunkQty q r chunks i
    let (rs, cs) := runTwapLoop client gw symbol side q r chunks dryRun rest
    if dryRun || client.isNone then (twapDryRec i qi :: rs, cs)
    else
      match gw i with
      | .ok resp => (.resp resp :: rs, .createOrder symbol side "MARKET" qi none none :: cs)
      | .error _ => (twapErrRec i :: rs, .createOrder symbol side "MARKET" qi none none :: cs)

/-- `run_twap`: computes the slice quantities, then for each chunk either
records a dry-run record, or places a market order, catching a placement
failure as an `ERROR` record and continuing.  `none` models the uncaught
exception from the quantity computation. -/
def run_twap (client : Option Unit) (gw : ℕ → Except Unit ℕ)
    (symbol side : String) (total : ℚ) (chunks : ℕ) (dryRun : Bool) :
    Option (List StratResult × List GwCall) :=
  match twapQtyPer total chunks with
  | none => none
  | some q =>
    let r := twapRemainder total q chunks
    some (runTwapLoop client gw symbol side q r chunks dryRun (List.range chunks))

/-! ## `grid_strategy.py` -/

/-- The exception, if any, with which `create_grid` terminates. -/
inductive GridErr
  | valueError       -- `raise ValueError("low must be < high")`
  | divisionByZero   -- `(high - low) / Decimal(0)`
  | invalidOperation -- quantize coefficient exceeding the 28-digit context
  deriving DecidableEq

/-- `grid_strategy.py` never changes the decimal context: default precision 28. -/
def gridPrec : ℕ := 28

/-- Line 42: `step_size = (high - low) / Decimal(steps)` (for `steps ≠ 0`). -/
def gridStepSize (low high : ℚ) (steps : ℤ) : ℚ :=
  decDiv gridPrec (decSub gridPrec high low) ((steps : ℤ) : ℚ)

/-- Line 46: `price = (low + step_size * i).quantize(Decimal("1.00"))`;
`none` is the `InvalidOperation` signal of the quantize. -/
def gridPrice (low stepSize : ℚ) (i : ℕ) : Option ℚ :=
  quantizeHE 2 gridPrec (decAdd gridPrec low (decMul gridPrec stepSize ((i : ℕ) : ℚ)))

/-- The dry-run record `{"price": str(price), "qty": str(qty_per_order),
"status": "DRY_RUN"}` appended for one grid level. -/
def gridDryRec (price qty : ℚ) : StratResult :=
  .dict [("price", .dec price), ("qty", .dec qty), ("status", .str "DRY_RUN")]

/-- The grid placement loop over the level indices `idxs`.  A live placement
failure is caught and logged only: the loop continues but appends **no**
record for that level.  A quantize failure propagates, aborting the loop. -/
def gridLoop (client : Option Unit) (gw : ℕ → Except Unit ℕ) (symbol : String)
    (low stepSize qty : ℚ) (dryRun : Bool) :
    List ℕ → List StratResult × List GwCall × Option GridErr
  | [] => ([], [], none)
  | i :: rest =>
    match gridPrice low stepSize i with
    | none => ([], [], some .invalidOperation)
    | some price =>
      if dryRun || client.isNone then
        let (rs, cs, err) := gridLoop client gw symbol low stepSize qty dryRun rest
        (gridDryRec price qty :: rs, cs, err)
      else
        let call := GwCall.createOrder symbol "BUY" "LIMIT" qty (some price) none
        match gw i with
        | .ok resp =>
          let (rs, cs, err) := gridLoop client gw symbol low stepSize qty dryRun rest
          (.resp resp :: rs, call :: cs, err)
        | .error _ =>
          let (rs, cs, err) := gridLoop client gw symbol low stepSize qty dryRun rest
          (rs, call :: cs, err)

/-- `create_grid`: validates `low < high`, computes the step size (raising
`DivisionByZero` when `steps = 0`), then places one BUY LIMIT order per level
`i ∈ range(steps + 1)`.  The result triple is (returned order list, gateway
call trace, terminating exception if any). -/
def create_grid (client : Option Unit) (gw : ℕ → Except Unit ℕ) (symbol : String)
    (low high : ℚ) (steps : ℤ) (qty : ℚ) (dryRun : Bool) :
    List StratResult × List GwCall × Option GridErr :=
  if high ≤ low then ([], [], some .valueError)
  else if steps = 0 then ([], [], some .divisionByZero)
  else
    gridLoop client gw symbol low (gridStepSize low high steps) qty dryRun
      (List.range (steps + 1).toNat)

/-! ## `oco.py` -/

/-- The synchronous result of `place_oco`: the dry-run dictionary
`{"status": "DRY_RUN"}`, or the live dictionary `{"tp": tp_order, "sl":
sl_order}` of the two exchange responses. -/
inductive OcoResult
  | dict : PyDict → OcoResult
  | pair : ℕ → ℕ → OcoResult
  deriving DecidableEq

/-- `"SELL" if side == "BUY" else "BUY"` (line 31). -/
def oppositeSide (side : String) : String := if side = "BUY" then "SELL" else "BUY"

/-- `place_oco`: dry-run returns `{"status": "DRY_RUN"}` with no call;
live places the take-profit LIMIT leg then the stop-loss STOP_MARKET leg,
re-raising either failure.  (The background watcher thread it then starts is
modelled separately by `watcher`.) -/
def place_oco (client : Option Unit) (gwTp gwSl : Except Unit ℕ)
    (symbol side : String) (qty tpPrice slPrice : ℚ) (dryRun : Bool) :
    Except Unit OcoResult × List GwCall :=
  if dryRun || client.isNone then
    (.ok (.dict [("status", .str "DRY_RUN")]), [])
  else
    let tpCall := GwCall.createOrder symbol side "LIMIT" qty (some tpPrice) none
    let slCall := GwCall.createOrder symbol (oppositeSide side) "STOP_MARKET" qty none (some slPrice)
    match gwTp with
    | .error e => (.error e, [tpCall])
    | .ok tp =>
      match gwSl with
      | .error e => (.error e, [tpCall, slCall])
      | .ok sl => (.ok (.pair tp sl), [tpCall, slCall])

/-- One action of the OCO watch loop, tagged with the poll index. -/
inductive WatchStep
  | queryTp (k : ℕ)
  | querySl (k : ℕ)
  | cancelSl (k : ℕ)
  | cancelTp (k : ℕ)
  deriving DecidableEq

/-- How the watch loop terminated: take-profit filled (stop-loss cancelled) or
stop-loss filled (take-profit cancelled). -/
inductive WatchOutcome
  | closedTp
  | closedSl
  deriving DecidableEq

/-- The exchange as seen by the watcher on poll `k`: the status strings the
two `futures_get_order` queries return, and the outcomes of the two possible
`futures_cancel_order` calls.  `.error ()` is an exception raised by the call. -/
structure OcoOracle where
  tpStatus : ℕ → Except Unit String
  slStatus : ℕ → Except Unit String
  cancelSl : ℕ → Except Unit Unit
  cancelTp : ℕ → Except Unit Unit

/-- One iteration of the watcher's `while True:` body at poll `k`: query both
legs, then cancel the sibling of a FILLED leg (take-profit checked first).
Any exception is caught by the `except:` and the loop continues (`none`);
`some outcome` is the `break`. -/
def watchIter (o : OcoOracle) (k : ℕ) : List WatchStep × Option WatchOutcome :=
  match o.tpStatus k with
  | .error _ => ([.queryTp k], none)
  | .ok tp =>
    match o.slStatus k with
    | .error _ => ([.queryTp k, .querySl k], none)
    | .ok sl =>
      if tp = "FILLED" then
        match o.cancelSl k with
        | .error _ => ([.queryTp k, .querySl k, .cancelSl k], none)
        | .ok _ => ([.queryTp k, .querySl k, .cancelSl k], some .closedTp)
      else if sl = "FILLED" then
        match o.cancelTp k with
        | .error _ => ([.queryTp k, .querySl k, .cancelTp k], none)
        | .ok _ => ([.queryTp k, .querySl k, .cancelTp k], some .closedSl)
      else ([.queryTp k, .querySl k], none)

/-- The watcher loop of `place_oco`, polling from index `k` with `fuel`
remaining iterations.  Returns the full ordered action trace and the outcome
(`none` when the fuel runs out with the loop still going). -/
def watcher (o : OcoOracle) : ℕ → ℕ → List WatchStep × Option WatchOutcome
  | 0, _ => ([], none)
  | fuel + 1, k =>
    match watchIter o k with
    | (acts, some out) => (acts, some out)
    | (acts, none) =>
      let (acts2, out) := watcher o fuel (k + 1)
      (acts ++ acts2, out)

/-! ## `stop_limit.py` -/

/-- The market as seen by the stop-limit watcher on poll `k`: the ticker price
returned by `futures_symbol_ticker`, and the outcome of the limit-order
placement were it attempted on that poll. -/
structure TickerOracle where
  price : ℕ → Except Unit ℚ
  place : ℕ → Except Unit ℕ

/-- The trigger condition of `stop_limit.py` line 53:
`(side == "BUY" and price >= stop_price) or (side == "SELL" and price <=
stop_price)`. -/
def slTriggered (side : String) (price stop : ℚ) : Bool :=
  (side = "BUY" && stop ≤ price) || (side = "SELL" && price ≤ stop)

/-- One observable event of the stop-limit watch loop. -/
inductive SlStep
  | tickOk (k : ℕ) (price : ℚ)
  | tickErr (k : ℕ)
  | placeOrder (k : ℕ) (symbol side : String) (qty price : ℚ)
  deriving DecidableEq

/-- The `while True:` polling loop of `stop_limit_watch_and_place`, from poll
index `k` with `fuel` remaining iterations: poll the price, and on the trigger
condition place the limit order and return it.  Exceptions (from the ticker or
the placement) are caught and polling continues. -/
def stopLimitLoop (o : TickerOracle) (symbol side : String) (qty stop limit : ℚ) :
    ℕ → ℕ → List SlStep × Option ℕ
  | 0, _ => ([], none)
  | fuel + 1, k =>
    match o.price k with
    | .error _ =>
      let (t, res) := stopLimitLoop o symbol side qty stop limit fuel (k + 1)
      (.tickErr k :: t, res)
    | .ok p =>
      if slTriggered side p stop then
        match o.place k with
        | .ok resp => ([.tickOk k p, .placeOrder k symbol side qty limit], some resp)
        | .error _ =>
          let (t, res) := stopLimitLoop o symbol side qty stop limit fuel (k + 1)
          (.tickOk k p :: .placeOrder k symbol side qty limit :: t, res)
      else
        let (t, res) := stopLimitLoop o symbol side qty stop limit fuel (k + 1)
        (.tickOk k p :: t, res)

/-- The result of `stop_limit_watch_and_place`: the dry-run echo dictionary,
or the live loop's event trace together with the placed order's response. -/
inductive SlOutcome
  | dry : PyDict → SlOutcome
  | live : List SlStep → Option ℕ → SlOutcome
  deriving DecidableEq

/-- `stop_limit_watch_and_place`: dry-run returns the full echo dictionary
with no gateway interaction; live runs the polling loop. -/
def stop_limit_watch_and_place (client : Option Unit) (o : TickerOracle)
    (symbol side : String) (qty stop limit : ℚ) (dryRun : Bool) (fuel : ℕ) :
    SlOutcome :=
  if dryRun || client.isNone then
    .dry [("status", .str "DRY_RUN"), ("symbol", .str symbol), ("side", .str side),
          ("qty", .dec qty), ("stop", .dec stop), ("limit", .dec limit)]
  else
    let (t, res) := stopLimitLoop o symbol side qty stop limit fuel 0
    .live t res

/-! ## `validation.py`

`validate_quantity` / `validate_price` call `Decimal(s)` on the raw CLI
string.  The `Decimal` string constructor accepts, after stripping surrounding
whitespace and removing underscores, the (case-insensitive) grammar

    [sign] ( digits [. digits] | . digits ) [E [sign] digits]
  | [sign] (Inf | Infinity)
  | [sign] (NaN | sNaN) [digits]

and signals `InvalidOperation` otherwise.  Construction is exact (the context
precision does not round it).  The model tracks the five kinds of resulting
values; a finite value is tracked exactly as a rational.  (The model covers
the ASCII strings a CLI passes; CPython additionally accepts non-ASCII
Unicode digit and whitespace characters.) -/

/-- The value classes a `Decimal` construction can produce. -/
inductive PyDecVal
  | fin : ℚ → PyDecVal
  | inf : PyDecVal
  | negInf : PyDecVal
  | nan : PyDecVal
  | snan : PyDecVal
  deriving DecidableEq

/-- ASCII whitespace stripped by the constructor (as by `str.strip`). -/
def isWsChar (c : Char) : Bool :=
  c = ' ' || c = '\t' || c = '\n' || c = '\r' || c = '\x0b' || c = '\x0c'

/-- A decimal digit. -/
def isDigitChar (c : Char) : Bool := '0' ≤ c && c ≤ '9'

/-- Strip leading and trailing whitespace characters. -/
def stripWs (cs : List Char) : List Char :=
  ((cs.dropWhile isWsChar).reverse.dropWhile isWsChar).reverse

/-- The natural number denoted by a digit string, MSD first. -/
def natOfDigits : List Char → ℕ → ℕ
  | [], acc => acc
  | c :: cs, acc => natOfDigits cs (acc * 10 + (c.toNat - '0'.toNat))

/-- Parse an optional leading sign; returns (isNegative, rest). -/
def parseSign : List Char → Bool × List Char
  | '+' :: cs => (false, cs)
  | '-' :: cs => (true, cs)
  | cs => (false, cs)

/-- Parse the optional exponent suffix `E [sign] digits` (empty input means
exponent 0); `none` on trailing garbage. -/
def parseDecExp : List Char → Option ℤ
  | [] => some 0
  | 'e' :: cs =>
    let (neg, cs2) := parseSign cs
    let ds := cs2.takeWhile isDigitChar
    if ds.length = 0 then none
    else if cs2.drop ds.length ≠ [] then none
    else some (if neg then -(natOfDigits ds 0 : ℤ) else (natOfDigits ds 0 : ℤ))
  | _ => none

/-- Parse an unsigned numeric body `digits [. digits] [exp]` into
(coefficient, scale) with value `coefficient / 10 ^ scale`. -/
def parseFinite (cs : List Char) : Option (ℕ × ℤ) :=
  let ipart := cs.takeWhile isDigitChar
  let rest1 := cs.drop ipart.length
  let fpart :=
    match rest1 with
    | '.' :: r => r.takeWhile isDigitChar
    | _ => []
  let rest2 :=
    match rest1 with
    | '.' :: r => r.drop fpart.length
    | _ => rest1
  if ipart.length = 0 ∧ fpart.length = 0 then none
  else
    match parseDecExp rest2 with
    | none => none
    | some e => some (natOfDigits (ipart ++ fpart) 0, (fpart.length : ℤ) - e)

/-- Parse an already stripped, underscore-free, lower-cased character list. -/
def parseDecimalCore (cs : List Char) : Option PyDecVal :=
  let (neg, body) := parseSign cs
  if body = ['i', 'n', 'f'] ∨ body = ['i', 'n', 'f', 'i', 'n', 'i', 't', 'y'] then
    some (if neg then .negInf else .inf)
  else if body.take 3 = ['n', 'a', 'n'] ∧ (body.drop 3).all isDigitChar then
    some .nan
  else if body.take 4 = ['s', 'n', 'a', 'n'] ∧ (body.drop 4).all isDigitChar then
    some .snan
  else
    match parseFinite body with
    | none => none
    | some (c, s) => some (.fin (scaleQ (if neg then -(c : ℤ) else (c : ℤ)) s))

/-- The `Decimal` string constructor: `none` is `InvalidOperation`. -/
def parseDecimal (s : String) : Option PyDecVal :=
  parseDecimalCore (((stripWs s.data).filter (fun c => c ≠ '_')).map Char.toLower)

/-- What a validator call does: return the parsed `Decimal`, raise
`ValueError`, or let an uncaught `decimal.InvalidOperation` escape. -/
inductive VResult
  | accepted : PyDecVal → VResult
  | valueError : VResult
  | invalidOperation : VResult
  deriving DecidableEq

/-- Shared body of `validate_quantity` and `validate_price`: `Decimal(s)` with
`InvalidOperation` caught and re-raised as `ValueError`; then `if d <= 0:
raise ValueError`.  The `<=` comparison on a (quiet or signaling) NaN itself
signals `InvalidOperation`, which nothing catches; `Infinity` compares greater
than 0 and is accepted. -/
def validateDecimalStr (s : String) : VResult :=
  match parseDecimal s with
  | none => .valueError
  | some (.fin v) => if v ≤ 0 then .valueError else .accepted (.fin v)
  | some .inf => .accepted .inf
  | some .negInf => .valueError
  | some .nan => .invalidOperation
  | some .snan => .invalidOperation

/-- `validate_quantity` (validation.py lines 25–35). -/
def validate_quantity (qty : String) : VResult := validateDecimalStr qty

/-- `validate_price` (validation.py lines 37–47): the same checks. -/
def validate_price (price : String) : VResult := validateDecimalStr price

/-! ## Helper lemmas about the loops -/

/-- In dry-run (or with no client) the TWAP loop emits one `DRY_RUN` record
per chunk and performs no gateway call. -/
theorem runTwapLoop_dry (client : Option Unit) (gw : ℕ → Except Unit ℕ)
    (symbol side : String) (q r : ℚ) (chunks : ℕ) (dryRun : Bool)
    (h : (dryRun || client.isNone) = true) (l : List ℕ) :
    runTwapLoop client gw symbol side q r chunks dryRun l =
      (l.map (fun i => twapDryRec i (twapChunkQty q r chunks i)), []) := by
  induction l with
  | nil => rfl
  | cons i rest ih => simp [runTwapLoop, ih, h]

/-- Live, the TWAP loop attempts every chunk's placement in order, appending
the response on success and the `ERROR` record on failure. -/
theorem runTwapLoop_live (gw : ℕ → Except Unit ℕ)
    (symbol side : String) (q r : ℚ) (chunks : ℕ) (l : List ℕ) :
    runTwapLoop (some ()) gw symbol side q r chunks false l =
      (l.map (fun i => match gw i with
        | .ok resp => StratResult.resp resp
        | .error _ => twapErrRec i),
       l.map (fun i =>
         GwCall.createOrder symbol side "MARKET" (twapChunkQty q r chunks i) none none)) := by
  induction l with
  | nil => rfl
  | cons i rest ih =>
    simp only [runTwapLoop, ih, Option.isNone_some, Bool.or_false, List.map_cons]
    cases gw i <;> rfl

/-- In dry-run (or with no client) the grid loop emits one `DRY_RUN` record
per level and performs no gateway call, provided every level's quantize
succeeds. -/
theorem gridLoop_dry (client : Option Unit) (gw : ℕ → Except Unit ℕ)
    (symbol : String) (low stepSize qty : ℚ) (dryRun : Bool)
    (h : (dryRun || client.isNone) = true) (pr : ℕ → ℚ) (l : List ℕ)
    (hpr : ∀ i ∈ l, gridPrice low stepSize i = some (pr i)) :
    gridLoop client gw symbol low stepSize qty dryRun l =
      (l.map (fun i => gridDryRec (pr i) qty), [], none) := by
  induction l with
  | nil => rfl
  | cons i rest ih =>
    have hi := hpr i (List.mem_cons_self i rest)
    have hrest := fun j hj => hpr j (List.mem_cons_of_mem i hj)
    simp [gridLoop, hi, ih hrest, h]

/-- Live, the grid loop attempts every level's placement in order, but keeps a
result entry only for the successful ones. -/
theorem gridLoop_live (gw : ℕ → Except Unit ℕ)
    (symbol : String) (low stepSize qty : ℚ) (pr : ℕ → ℚ) (l : List ℕ)
    (hpr : ∀ i ∈ l, gridPrice low stepSize i = some (pr i)) :
    gridLoop (some ()) gw symbol low stepSize qty false l =
      (l.filterMap (fun i => match gw i with
        | .ok resp => some (StratResult.resp resp)
        | .error _ => none),
       l.map (fun i => GwCall.createOrder symbol "BUY" "LIMIT" qty (some (pr i)) none),
       none) := by
  induction l with
  | nil => rfl
  | cons i rest ih =>
    have hi := hpr i (List.mem_cons_self i rest)
    have hrest := fun j hj => hpr j (List.mem_cons_of_mem i hj)
    simp only [gridLoop, hi, ih hrest, Option.isNone_some, Bool.or_false,
      List.filterMap_cons, List.map_cons]
    cases gw i <;> rfl

/-! ## C1: TWAP chunk quantities summing to the total -/

/-- **C1** (amended): the emitted TWAP chunk quantities sum to the total
exactly *provided the context-precision operations involved are exact*: the
products and sums stay within the 12-significant-digit context, which the
hypotheses `hmul`, `hsub`, `hadd`, `hzero` state.  (`C1_counterexample` shows
the unconditional claim fails when an intermediate result is rounded.) -/
theorem C1_twap_sum_exact (total : ℚ) (chunks : ℕ) (hchunks : 1 ≤ chunks) (q : ℚ)
    (hq : twapQtyPer total chunks = some q)
    (hmul : decMul twapPrec q ((chunks : ℕ) : ℚ) = q * ((chunks : ℕ) : ℚ))
    (hsub : decSub twapPrec total (q * ((chunks : ℕ) : ℚ)) = total - q * ((chunks : ℕ) : ℚ))
    (hadd : decAdd twapPrec q (total - q * ((chunks : ℕ) : ℚ)) =
      q + (total - q * ((chunks : ℕ) : ℚ)))
    (hzero : decAdd twapPrec q 0 = q) :
    ∃ l, twapQuantities total chunks = some l ∧ l.sum = total := by
  obtain ⟨k, rfl⟩ : ∃ k, chunks = k + 1 :=
    ⟨chunks - 1, (Nat.succ_pred_eq_of_pos hchunks).symm⟩
  refine ⟨_, by rw [twapQuantities, hq], ?_⟩
  have hrem : twapRemainder total q (k + 1) = total - q * ((k + 1 : ℕ) : ℚ) := by
    rw [twapRemainder, hmul, hsub]
  have hconst : (List.range k).map (twapChunkQty q (twapRemainder total q (k + 1)) (k + 1)) =
      List.replicate k q := by
    rw [List.eq_replicate_iff]
    refine ⟨by simp, ?_⟩
    intro b hb
    obtain ⟨i, hi, rfl⟩ := List.mem_map.mp hb
    have hik : i ≠ k := Nat.ne_of_lt (List.mem_range.mp hi)
    simp [twapChunkQty, hik, hzero]
  have hlast : twapChunkQty q (twapRemainder total q (k + 1)) (k + 1) k =
      q + (total - q * ((k + 1 : ℕ) : ℚ)) := by
    have hsel : twapChunkQty q (twapRemainder total q (k + 1)) (k + 1) k =
        decAdd twapPrec q (twapRemainder total q (k + 1)) := by
      simp [twapChunkQty]
    rw [hsel, hrem, hadd]
  rw [List.range_succ, List.map_append, List.sum_append, hconst, List.sum_replicate,
    List.map_singleton, List.sum_singleton, hlast, nsmul_eq_mul]
  push_cast
  ring

/-- **C1** fails as stated: for total `0.123456789012345` and 7 chunks the
final chunk's addition `qty_per + remainder` exceeds 12 significant digits and
is rounded, so the emitted quantities sum to `0.1234567890123 ≠ total`. -/
theorem C1_counterexample :
    twapQuantities (mkRat 123456789012345 (10 ^ 15)) 7 =
      some [mkRat 1763668 (10 ^ 8), mkRat 1763668 (10 ^ 8), mkRat 1763668 (10 ^ 8),
            mkRat 1763668 (10 ^ 8), mkRat 1763668 (10 ^ 8), mkRat 1763668 (10 ^ 8),
            mkRat 176367090123 (10 ^ 13)] ∧
    [mkRat 1763668 (10 ^ 8), mkRat 1763668 (10 ^ 8), mkRat 1763668 (10 ^ 8),
     mkRat 1763668 (10 ^ 8), mkRat 1763668 (10 ^ 8), mkRat 1763668 (10 ^ 8),
     mkRat 176367090123 (10 ^ 13)].sum ≠ mkRat 123456789012345 (10 ^ 15) := by
  constructor
  · decide
  · simp only [List.sum_cons, List.sum_nil, Rat.mkRat_eq_div]
    norm_num

/-- Witness for `C1_twap_sum_exact`: total 1, 3 chunks — every context
operation is exact there, and the chunk quantities `[0.33333333, 0.33333333,
0.33333334]` sum to 1. -/
theorem C1_witness : ∃ l, twapQuantities 1 3 = some l ∧ l.sum = 1 := by
  have h3 : mkRat 33333333 (10 ^ 8) * ((3 : ℕ) : ℚ) = mkRat 99999999 (10 ^ 8) := by
    rw [Rat.mkRat_eq_div, Rat.mkRat_eq_div]
    push_cast
    norm_num
  have h4 : (1 : ℚ) - mkRat 99999999 (10 ^ 8) = mkRat 1 (10 ^ 8) := by
    rw [Rat.mkRat_eq_div, Rat.mkRat_eq_div]
    norm_num
  refine C1_twap_sum_exact 1 3 (by norm_num) (mkRat 33333333 (10 ^ 8)) (by decide) ?_ ?_ ?_
    (by decide)
  · rw [h3]
    decide
  · rw [h3, h4]
    rw [show decSub twapPrec 1 (mkRat 99999999 (10 ^ 8)) = mkRat 1 (10 ^ 8) from by decide]
  · rw [h3, h4]
    rw [show decAdd twapPrec (mkRat 33333333 (10 ^ 8)) (mkRat 1 (10 ^ 8)) =
      mkRat 33333334 (10 ^ 8) from by decide]
    rw [Rat.mkRat_eq_div, Rat.mkRat_eq_div, Rat.mkRat_eq_div]
    norm_num

/-! ## C5 and C10: the bracket watcher -/

/-- **C5**: when the take-profit leg's query returns FILLED on the first poll
(and the stop-loss leg's query succeeds with a non-FILLED status), the watcher
queries both legs, issues exactly one cancel — against the stop-loss leg —
and terminates: the complete action trace is those three calls, for any
remaining fuel. -/
theorem C5_tp_fill_single_cancel (o : OcoOracle) (fuel : ℕ) (st : String)
    (htp : o.tpStatus 0 = .ok "FILLED")
    (hsl : o.slStatus 0 = .ok st) (hne : st ≠ "FILLED")
    (hc : o.cancelSl 0 = .ok ()) :
    watcher o (fuel + 1) 0 = ([.queryTp 0, .querySl 0, .cancelSl 0], some .closedTp) := by
  simp [watcher, watchIter, htp, hsl, hc]

/-- Witness for `C5_tp_fill_single_cancel` at a concrete oracle. -/
theorem C5_witness :
    watcher ⟨fun _ => .ok "FILLED", fun _ => .ok "NEW", fun _ => .ok (), fun _ => .ok ()⟩
      5 0 = ([.queryTp 0, .querySl 0, .cancelSl 0], some .closedTp) :=
  C5_tp_fill_single_cancel
    ⟨fun _ => .ok "FILLED", fun _ => .ok "NEW", fun _ => .ok (), fun _ => .ok ()⟩
    4 "NEW" rfl rfl (by decide) rfl

/-- **C10**: if on a poll both legs report FILLED, the take-profit check wins:
the single cancel targets the stop-loss leg and the outcome is the
take-profit closure — the take-profit leg is never cancelled. -/
theorem C10_tp_precedence (o : OcoOracle) (fuel : ℕ)
    (htp : o.tpStatus 0 = .ok "FILLED")
    (hsl : o.slStatus 0 = .ok "FILLED")
    (hc : o.cancelSl 0 = .ok ()) :
    watcher o (fuel + 1) 0 = ([.queryTp 0, .querySl 0, .cancelSl 0], some .closedTp) := by
  simp [watcher, watchIter, htp, hsl, hc]

/-- Witness for `C10_tp_precedence` at a concrete oracle with both legs
FILLED. -/
theorem C10_witness :
    watcher ⟨fun _ => .ok "FILLED", fun _ => .ok "FILLED", fun _ => .ok (), fun _ => .ok ()⟩
      3 0 = ([.queryTp 0, .querySl 0, .cancelSl 0], some .closedTp) :=
  C10_tp_precedence
    ⟨fun _ => .ok "FILLED", fun _ => .ok "FILLED", fun _ => .ok (), fun _ => .ok ()⟩
    2 rfl rfl rfl

/-! ## C6: the stop-limit trigger watcher -/

/-- Unrolling the stop-limit polling loop: if polls `j, …, j + m - 1` succeed
without triggering, and poll `j + m` triggers with a successful placement,
the loop records each poll in order, places exactly one order, and returns
that order's response. -/
theorem stopLimitLoop_run (o : TickerOracle) (symbol side : String)
    (qty stop limit : ℚ) (pr : ℕ → ℚ) (resp : ℕ) :
    ∀ (m fuel j : ℕ), m < fuel →
    (∀ t, t < m → o.price (j + t) = .ok (pr (j + t)) ∧
      slTriggered side (pr (j + t)) stop = false) →
    o.price (j + m) = .ok (pr (j + m)) →
    slTriggered side (pr (j + m)) stop = true →
    o.place (j + m) = .ok resp →
    stopLimitLoop o symbol side qty stop limit fuel j =
      ((List.range m).map (fun t => .tickOk (j + t) (pr (j + t))) ++
        [.tickOk (j + m) (pr (j + m)), .placeOrder (j + m) symbol side qty limit],
       some resp) := by
  intro m
  induction m with
  | zero =>
    intro fuel j hfuel hpre hn htrig hplace
    obtain ⟨f, rfl⟩ : ∃ f, fuel = f + 1 :=
      ⟨fuel - 1, (Nat.succ_pred_eq_of_pos hfuel).symm⟩
    rw [stopLimitLoop]
    simp only [Nat.add_zero] at hn htrig hplace
    simp [hn, htrig, hplace]
  | succ m ih =>
    intro fuel j hfuel hpre hn htrig hplace
    obtain ⟨f, rfl⟩ : ∃ f, fuel = f + 1 :=
      ⟨fuel - 1, (Nat.succ_pred_eq_of_pos (by omega)).symm⟩
    have h0 := hpre 0 (by omega)
    rw [Nat.add_zero] at h0
    have hidx : ∀ t : ℕ, j + (t + 1) = j + 1 + t := fun t => by omega
    rw [hidx m] at hn htrig hplace
    have hrest := ih f (j + 1) (by omega)
      (fun t ht => by
        have h := hpre (t + 1) (by omega)
        rwa [hidx t] at h)
      hn htrig hplace
    have hmap : (List.range (m + 1)).map (fun t => SlStep.tickOk (j + t) (pr (j + t))) =
        SlStep.tickOk j (pr j) ::
          (List.range m).map (fun t => SlStep.tickOk (j + 1 + t) (pr (j + 1 + t))) := by
      rw [List.range_succ_eq_map, List.map_cons, List.map_map]
      simp only [Nat.add_zero]
      refine congrArg _ (List.map_congr_left fun t _ => ?_)
      simp only [Function.comp_apply]
      rw [hidx t]
    rw [stopLimitLoop]
    simp only [h0.1, h0.2, Bool.false_eq_true, if_false, hrest, hidx m, hmap,
      List.cons_append]

/-- **C6**: live, for any poll sequence that does not meet the trigger
condition before poll `n` and meets it at poll `n` (with the placement
succeeding there), the watcher places no order before `n` and on poll `n`
places exactly one LIMIT order with the configured side, quantity and limit
price, returning that order's response and stopping.  The trigger condition
is `price ≤ stop` for SELL and `price ≥ stop` for BUY. -/
theorem C6_stop_limit_trigger (o : TickerOracle) (symbol side : String)
    (qty stop limit : ℚ) (pr : ℕ → ℚ) (resp : ℕ) (n fuel : ℕ)
    (hfuel : n < fuel)
    (hpre : ∀ k, k < n → o.price k = .ok (pr k) ∧ slTriggered side (pr k) stop = false)
    (hn : o.price n = .ok (pr n))
    (htrig : slTriggered side (pr n) stop = true)
    (hplace : o.place n = .ok resp) :
    stop_limit_watch_and_place (some ()) o symbol side qty stop limit false fuel =
      .live ((List.range n).map (fun k => .tickOk k (pr k)) ++
        [.tickOk n (pr n), .placeOrder n symbol side qty limit]) (some resp) ∧
    (∀ p s : ℚ, slTriggered "SELL" p s = decide (p ≤ s)) ∧
    (∀ p s : ℚ, slTriggered "BUY" p s = decide (s ≤ p)) := by
  refine ⟨?_, fun p s => by simp [slTriggered], fun p s => by simp [slTriggered]⟩
  have h := stopLimitLoop_run o symbol side qty stop limit pr resp n fuel 0 hfuel
    (fun t ht => by simpa using hpre t ht) (by simpa using hn) (by simpa using htrig)
    (by simpa using hplace)
  simp only [stop_limit_watch_and_place, Option.isNone_some, Bool.or_false, if_false, h]
  simp

/-- Witness for `C6_stop_limit_trigger`: SELL with stop 64000; the first poll
reads 65000 (no fire), the second reads 64000 and fires once, placing the
configured limit order at 63900. -/
theorem C6_witness :
    stop_limit_watch_and_place (some ())
      ⟨fun k => .ok (if k = 0 then (65000 : ℚ) else 64000), fun _ => .ok 77⟩
      "BTCUSDT" "SELL" 1 64000 63900 false 5 =
      .live [.tickOk 0 65000, .tickOk 1 64000, .placeOrder 1 "BTCUSDT" "SELL" 1 63900]
        (some 77) := by
  have h := C6_stop_limit_trigger
    ⟨fun k => .ok (if k = 0 then (65000 : ℚ) else 64000), fun _ => .ok 77⟩
    "BTCUSDT" "SELL" 1 64000 63900 (fun k => if k = 0 then (65000 : ℚ) else 64000) 77 1 5
    (by norm_num)
    (fun k hk => by
      obtain rfl : k = 0 := by omega
      exact ⟨rfl, by decide⟩)
    rfl (by decide) rfl
  rw [h.1]
  simp [List.range_succ]

/-! ## C7: grid price levels -/

/-- **C7** (amended): for `low < high` and `steps ≥ 1`, *provided each level's
quantized price fits the 28-digit context* (hypothesis `hpr`, which also names
the prices), a dry-run `create_grid` terminates normally with exactly
`steps + 1` result entries, entry `i` carrying the price
`(low + ((high - low) / steps) * i).quantize(Decimal("1.00"))`
(that is, `gridPrice low (gridStepSize low high steps) i`) and the configured
per-level quantity.  Without that proviso the quantize raises
`InvalidOperation` (`C7_counterexample`). -/
theorem C7_grid_levels (client : Option Unit) (gw : ℕ → Except Unit ℕ) (symbol : String)
    (low high qty : ℚ) (steps : ℤ) (hlh : low < high) (hsteps : 1 ≤ steps)
    (pr : ℕ → ℚ)
    (hpr : ∀ i < (steps + 1).toNat,
      gridPrice low (gridStepSize low high steps) i = some (pr i)) :
    create_grid client gw symbol low high steps qty true =
      ((List.range (steps + 1).toNat).map (fun i => gridDryRec (pr i) qty), [], none) ∧
    ((List.range (steps + 1).toNat).map (fun i => gridDryRec (pr i) qty)).length =
      (steps + 1).toNat := by
  refine ⟨?_, by simp⟩
  rw [create_grid, if_neg (not_le.mpr hlh), if_neg (by omega)]
  exact gridLoop_dry client gw symbol low _ qty true rfl pr _
    (fun i hi => hpr i (List.mem_range.mp hi))

/-- Witness for `C7_grid_levels`: low 60000, high 70000, 10 steps gives the
eleven levels 60000.00, 61000.00, …, 70000.00. -/
theorem C7_witness :
    create_grid (some ()) (fun i => .ok i) "BTCUSDT" 60000 70000 10 1 true =
      ([gridDryRec 60000 1, gridDryRec 61000 1, gridDryRec 62000 1, gridDryRec 63000 1,
        gridDryRec 64000 1, gridDryRec 65000 1, gridDryRec 66000 1, gridDryRec 67000 1,
        gridDryRec 68000 1, gridDryRec 69000 1, gridDryRec 70000 1], [], none) := by
  have h := C7_grid_levels (some ()) (fun i => .ok i) "BTCUSDT" 60000 70000 1 10
    (by norm_num) (by norm_num) (fun i => mkRat (60000 + 1000 * i) 1)
    (by
      intro i hi
      have h11 : i < 11 := by omega
      interval_cases i <;> decide)
  rw [h.1]
  decide

/-- **C7** fails as stated at extreme magnitudes: with `low = 10^27` and
`high = 2 · 10^27` (a valid `GridSpec`: `low < high`, `steps = 1 ≥ 1`), the
level-0 quantize needs a 30-digit coefficient, beyond the 28-digit context, so
`create_grid` raises `InvalidOperation` and produces no levels instead of
`steps + 1 = 2`. -/
theorem C7_counterexample :
    create_grid (some ()) (fun i => .ok i) "BTCUSDT"
      (mkRat (10 ^ 27) 1) (mkRat (2 * 10 ^ 27) 1) 1 1 true =
      ([], [], some .invalidOperation) ∧
    ([] : List StratResult).length ≠ 2 := by
  exact ⟨by decide, by decide⟩

/-! ## C4: grid input validation -/

/-- **C4** (amended): `low ≥ high` raises `ValueError` before any gateway
interaction, and a zero step count raises the decimal `DivisionByZero` (an
arithmetic error, not a validation error) before any gateway interaction —
but a *negative* step count passes both checks and simply yields an empty
order list, with no exception and no placement: it is not rejected. -/
theorem C4_grid_validation (client : Option Unit) (gw : ℕ → Except Unit ℕ)
    (symbol : String) (low high qty : ℚ) (steps : ℤ) (dryRun : Bool) :
    (high ≤ low →
      create_grid client gw symbol low high steps qty dryRun = ([], [], some .valueError)) ∧
    (low < high → steps = 0 →
      create_grid client gw symbol low high steps qty dryRun = ([], [], some .divisionByZero)) ∧
    (low < high → steps < 0 →
      create_grid client gw symbol low high steps qty dryRun = ([], [], none)) := by
  refine ⟨fun h => by rw [create_grid, if_pos h], ?_, ?_⟩
  · intro h h0
    rw [create_grid, if_neg (not_le.mpr h), if_pos h0]
  · intro h hneg
    rw [create_grid, if_neg (not_le.mpr h), if_neg (by omega)]
    have h0 : (steps + 1).toNat = 0 := by omega
    rw [h0]
    rfl

/-- **C4** fails as stated: `create_grid` with the negative step count `-1`
raises nothing at all — it returns an empty order list — and with step count
`0` the exception raised is the decimal `DivisionByZero`, not a validation
error. -/
theorem C4_counterexample :
    create_grid (some ()) (fun i => .ok i) "BTCUSDT" 1 2 (-1) 1 false = ([], [], none) ∧
    create_grid (some ()) (fun i => .ok i) "BTCUSDT" 1 2 0 1 false =
      ([], [], some .divisionByZero) := by
  constructor
  · decide
  · decide

/-- Witness for `C4_grid_validation` at concrete inputs for each branch. -/
theorem C4_witness :
    create_grid (some ()) (fun i => .ok i) "BTCUSDT" 3 2 5 1 false =
      ([], [], some .valueError) ∧
    create_grid (some ()) (fun i => .ok i) "BTCUSDT" 1 2 0 1 true =
      ([], [], some .divisionByZero) ∧
    create_grid (some ()) (fun i => .ok i) "BTCUSDT" 1 2 (-3) 1 true = ([], [], none) := by
  refine ⟨?_, ?_, ?_⟩
  · exact (C4_grid_validation (some ()) (fun i => .ok i) "BTCUSDT" 3 2 1 5 false).1
      (by norm_num)
  · exact (C4_grid_validation (some ()) (fun i => .ok i) "BTCUSDT" 1 2 1 0 true).2.1
      (by norm_num) rfl
  · exact (C4_grid_validation (some ()) (fun i => .ok i) "BTCUSDT" 1 2 1 (-3) true).2.2
      (by norm_num) (by norm_num)

/-! ## C3: per-unit gateway-failure tolerance -/

/-- **C3** (amended): live, `run_twap` attempts every chunk, appending an
`ERROR` record for a failed chunk and the response otherwise — one entry per
chunk, in chunk order — while `create_grid` also attempts every level and
continues past failures, but appends **no** record for a failed level: its
returned sequence lists only the successful levels, in order. -/
theorem C3_partial_failure (gw gw2 : ℕ → Except Unit ℕ) (symbol side symbol2 : String)
    (total : ℚ) (chunks : ℕ) (q : ℚ) (hq : twapQtyPer total chunks = some q)
    (low high qty2 : ℚ) (steps : ℤ) (hlh : low < high) (hsteps : 1 ≤ steps)
    (pr : ℕ → ℚ)
    (hpr : ∀ i < (steps + 1).toNat,
      gridPrice low (gridStepSize low high steps) i = some (pr i)) :
    run_twap (some ()) gw symbol side total chunks false =
      some ((List.range chunks).map (fun i =>
              match gw i with
              | .ok resp => StratResult.resp resp
              | .error _ => twapErrRec i),
            (List.range chunks).map (fun i =>
              GwCall.createOrder symbol side "MARKET"
                (twapChunkQty q (twapRemainder total q chunks) chunks i) none none)) ∧
    create_grid (some ()) gw2 symbol2 low high steps qty2 false =
      ((List.range (steps + 1).toNat).filterMap (fun i =>
          match gw2 i with
          | .ok resp => some (StratResult.resp resp)
          | .error _ => none),
       (List.range (steps + 1).toNat).map (fun i =>
         GwCall.createOrder symbol2 "BUY" "LIMIT" qty2 (some (pr i)) none),
       none) := by
  constructor
  · rw [run_twap, hq]
    exact congrArg some
      (runTwapLoop_live gw symbol side q (twapRemainder total q chunks) chunks
        (List.range chunks))
  · rw [create_grid, if_neg (not_le.mpr hlh), if_neg (by omega)]
    exact gridLoop_live gw2 symbol2 low _ qty2 pr _ (fun i hi => hpr i (List.mem_range.mp hi))

/-- **C3** fails as stated for the Grid Builder: with the placement failing at
level 0 of a two-level grid, both levels are attempted but the returned
sequence has a single entry — no `ERROR` record is appended for the failed
level, so it is not one entry per unit. -/
theorem C3_counterexample :
    create_grid (some ()) (fun i => if i = 0 then .error () else .ok i) "BTCUSDT" 1 2 1 1 false =
      ([.resp 1],
       [.createOrder "BTCUSDT" "BUY" "LIMIT" 1 (some 1) none,
        .createOrder "BTCUSDT" "BUY" "LIMIT" 1 (some 2) none], none) ∧
    ([StratResult.resp 1] : List StratResult).length ≠ 2 := by
  exact ⟨by decide, by decide⟩

/-- Witness for `C3_partial_failure`: chunk 0 / level 0 fail, the rest
succeed. -/
theorem C3_witness :
    run_twap (some ()) (fun i => if i = 0 then .error () else .ok 9) "BTCUSDT" "BUY" 1 2 false =
      some ([twapErrRec 0, .resp 9],
            [.createOrder "BTCUSDT" "BUY" "MARKET" (mkRat 1 2) none none,
             .createOrder "BTCUSDT" "BUY" "MARKET" (mkRat 1 2) none none]) ∧
    create_grid (some ()) (fun i => if i = 0 then .error () else .ok 9) "BTCUSDT" 1 2 1 1 false =
      ([.resp 9],
       [.createOrder "BTCUSDT" "BUY" "LIMIT" 1 (some 1) none,
        .createOrder "BTCUSDT" "BUY" "LIMIT" 1 (some 2) none], none) := by
  have h := C3_partial_failure (fun i => if i = 0 then .error () else .ok 9)
    (fun i => if i = 0 then .error () else .ok 9) "BTCUSDT" "BUY" "BTCUSDT"
    1 2 (mkRat 1 2) (by decide) 1 2 1 1 (by norm_num) (by norm_num)
    (fun i => mkRat (i + 1) 1)
    (by
      intro i hi
      have h2 : i < 2 := by omega
      interval_cases i <;> decide)
  constructor
  · rw [h.1]
    decide
  · rw [h.2]
    decide

/-! ## C2: dry-run behaviour of every strategy -/

/-- **C2** (amended): with the dry-run flag set or no gateway client, every
strategy performs no gateway call and returns a result whose status field is
`DRY_RUN` — but the echoed fields differ by strategy: market, limit and
stop-limit orders echo all their input parameters; each TWAP chunk record
echoes only the chunk index and quantity; each grid record echoes only the
level price and quantity; and the OCO result is the bare `{"status":
"DRY_RUN"}`, echoing nothing (`C2_counterexample`). -/
theorem C2_dry_run (client : Option Unit) (dryRun : Bool)
    (hdry : (dryRun || client.isNone) = true)
    (gw gwTp gwSl : Except Unit ℕ) (gwT gwG : ℕ → Except Unit ℕ) (o : TickerOracle)
    (fuel : ℕ) (symbol side : String) (qty price tpPrice slPrice stop limit qtyG total : ℚ)
    (chunks : ℕ) (q : ℚ) (hq : twapQtyPer total chunks = some q)
    (low high : ℚ) (steps : ℤ) (hlh : low < high) (hsteps : 1 ≤ steps)
    (pr : ℕ → ℚ)
    (hpr : ∀ i < (steps + 1).toNat,
      gridPrice low (gridStepSize low high steps) i = some (pr i)) :
    place_market_order client gw symbol side qty dryRun =
      (.ok (.dict [("status", .str "DRY_RUN"), ("symbol", .str symbol),
                   ("side", .str side), ("qty", .dec qty)]), []) ∧
    place_limit_order client gw symbol side qty price dryRun =
      (.ok (.dict [("status", .str "DRY_RUN"), ("symbol", .str symbol),
                   ("side", .str side), ("qty", .dec qty), ("price", .dec price)]), []) ∧
    stop_limit_watch_and_place client o symbol side qty stop limit dryRun fuel =
      .dry [("status", .str "DRY_RUN"), ("symbol", .str symbol), ("side", .str side),
            ("qty", .dec qty), ("stop", .dec stop), ("limit", .dec limit)] ∧
    place_oco client gwTp gwSl symbol side qty tpPrice slPrice dryRun =
      (.ok (.dict [("status", .str "DRY_RUN")]), []) ∧
    run_twap client gwT symbol side total chunks dryRun =
      some ((List.range chunks).map (fun i =>
        twapDryRec i (twapChunkQty q (twapRemainder total q chunks) chunks i)), []) ∧
    create_grid client gwG symbol low high steps qtyG dryRun =
      ((List.range (steps + 1).toNat).map (fun i => gridDryRec (pr i) qtyG), [], none) := by
  refine ⟨?_, ?_, ?_, ?_, ?_, ?_⟩
  · rw [place_market_order.eq_def, if_pos hdry]
  · rw [place_limit_order.eq_def, if_pos hdry]
  · rw [stop_limit_watch_and_place, if_pos hdry]
  · rw [place_oco, if_pos hdry]
  · rw [run_twap, hq]
    exact congrArg some
      (runTwapLoop_dry client gwT symbol side q (twapRemainder total q chunks) chunks dryRun
        hdry (List.range chunks))
  · rw [create_grid, if_neg (not_le.mpr hlh), if_neg (by omega)]
    exact gridLoop_dry client gwG symbol low _ qtyG dryRun hdry pr _
      (fun i hi => hpr i (List.mem_range.mp hi))

/-- **C2** fails as stated: the dry-run OCO result is the bare dictionary
`{"status": "DRY_RUN"}` — it echoes neither symbol, side, quantity nor
prices — and the live OCO result is a `{"tp": …, "sl": …}` pair with no
status field at all, so the dry-run and live shapes differ in more than the
status field. -/
theorem C2_counterexample :
    place_oco none (.ok 1) (.ok 2) "BTCUSDT" "BUY" 1 70000 60000 true =
      (.ok (.dict [("status", PyVal.str "DRY_RUN")]), []) ∧
    List.lookup "symbol" [("status", PyVal.str "DRY_RUN")] = none ∧
    List.lookup "qty" [("status", PyVal.str "DRY_RUN")] = none ∧
    place_oco (some ()) (.ok 1) (.ok 2) "BTCUSDT" "BUY" 1 70000 60000 false =
      (.ok (.pair 1 2),
       [.createOrder "BTCUSDT" "BUY" "LIMIT" 1 (some 70000) none,
        .createOrder "BTCUSDT" "SELL" "STOP_MARKET" 1 none (some 60000)]) := by
  refine ⟨by decide, by decide, by decide, by decide⟩

/-- Witness for `C2_dry_run` at concrete inputs (client present, flag set). -/
theorem C2_witness :
    place_market_order (some ()) (.ok 5) "BTCUSDT" "BUY" 1 true =
      (.ok (.dict [("status", .str "DRY_RUN"), ("symbol", .str "BTCUSDT"),
                   ("side", .str "BUY"), ("qty", .dec 1)]), []) ∧
    place_limit_order (some ()) (.ok 5) "BTCUSDT" "BUY" 1 64000 true =
      (.ok (.dict [("status", .str "DRY_RUN"), ("symbol", .str "BTCUSDT"),
                   ("side", .str "BUY"), ("qty", .dec 1), ("price", .dec 64000)]), []) ∧
    stop_limit_watch_and_place (some ()) ⟨fun _ => .ok 64000, fun _ => .ok 5⟩
        "BTCUSDT" "BUY" 1 64000 63900 true 3 =
      .dry [("status", .str "DRY_RUN"), ("symbol", .str "BTCUSDT"), ("side", .str "BUY"),
            ("qty", .dec 1), ("stop", .dec 64000), ("limit", .dec 63900)] ∧
    place_oco (some ()) (.ok 1) (.ok 2) "BTCUSDT" "BUY" 1 70000 60000 true =
      (.ok (.dict [("status", .str "DRY_RUN")]), []) ∧
    run_twap (some ()) (fun i => .ok i) "BTCUSDT" "BUY" 1 2 true =
      some ((List.range 2).map (fun i =>
        twapDryRec i (twapChunkQty (mkRat 1 2) (twapRemainder 1 (mkRat 1 2) 2) 2 i)), []) ∧
    create_grid (some ()) (fun i => .ok i) "BTCUSDT" 1 2 1 1 true =
      ((List.range ((1 : ℤ) + 1).toNat).map (fun i => gridDryRec (mkRat (i + 1) 1) 1),
       [], none) :=
  C2_dry_run (some ()) true rfl (.ok 5) (.ok 1) (.ok 2) (fun i => .ok i)
    (fun i => .ok i) ⟨fun _ => .ok 64000, fun _ => .ok 5⟩ 3 "BTCUSDT" "BUY"
    1 64000 70000 60000 64000 63900 1 1 2 (mkRat 1 2) (by decide) 1 2 1
    (by norm_num) (by norm_num) (fun i => mkRat (i + 1) 1)
    (by
      intro i hi
      have h2 : i < 2 := by omega
      interval_cases i <;> decide)

/-! ## C8: missing credentials degrade to dry-run -/

/-- **C8** (amended): with either credential absent or empty, `create_client`
returns no client, and with no client every strategy — whatever the dry-run
flag — performs no gateway call and returns its `DRY_RUN` result; except that
TWAP's and the grid's own arithmetic can still raise before reaching the
dry-run branch (`C8_counterexample`), so the TWAP quantize success and the
grid validation are hypotheses here. -/
theorem C8_credentials_fallback (apiKey apiSecret : Option String)
    (hkey : (falsyEnv apiKey || falsyEnv apiSecret) = true) (dryRun : Bool)
    (gw gwTp gwSl : Except Unit ℕ) (gwT gwG : ℕ → Except Unit ℕ) (o : TickerOracle)
    (fuel : ℕ) (symbol side : String) (qty price tpPrice slPrice stop limit qtyG total : ℚ)
    (chunks : ℕ) (q : ℚ) (hq : twapQtyPer total chunks = some q)
    (low high : ℚ) (steps : ℤ) (hlh : low < high) (hsteps : 1 ≤ steps)
    (pr : ℕ → ℚ)
    (hpr : ∀ i < (steps + 1).toNat,
      gridPrice low (gridStepSize low high steps) i = some (pr i)) :
    create_client apiKey apiSecret = none ∧
    place_market_order none gw symbol side qty dryRun =
      (.ok (.dict [("status", .str "DRY_RUN"), ("symbol", .str symbol),
                   ("side", .str side), ("qty", .dec qty)]), []) ∧
    place_limit_order none gw symbol side qty price dryRun =
      (.ok (.dict [("status", .str "DRY_RUN"), ("symbol", .str symbol),
                   ("side", .str side), ("qty", .dec qty), ("price", .dec price)]), []) ∧
    stop_limit_watch_and_place none o symbol side qty stop limit dryRun fuel =
      .dry [("status", .str "DRY_RUN"), ("symbol", .str symbol), ("side", .str side),
            ("qty", .dec qty), ("stop", .dec stop), ("limit", .dec limit)] ∧
    place_oco none gwTp gwSl symbol side qty tpPrice slPrice dryRun =
      (.ok (.dict [("status", .str "DRY_RUN")]), []) ∧
    run_twap none gwT symbol side total chunks dryRun =
      some ((List.range chunks).map (fun i =>
        twapDryRec i (twapChunkQty q (twapRemainder total q chunks) chunks i)), []) ∧
    create_grid none gwG symbol low high steps qtyG dryRun =
      ((List.range (steps + 1).toNat).map (fun i => gridDryRec (pr i) qtyG), [], none) := by
  have hdry : (dryRun || (none : Option Unit).isNone) = true := by simp
  refine ⟨by rw [create_client, if_pos hkey], ?_, ?_, ?_, ?_, ?_, ?_⟩
  · rw [place_market_order.eq_def, if_pos hdry]
  · rw [place_limit_order.eq_def, if_pos hdry]
  · rw [stop_limit_watch_and_place, if_pos hdry]
  · rw [place_oco, if_pos hdry]
  · rw [run_twap, hq]
    exact congrArg some
      (runTwapLoop_dry none gwT symbol side q (twapRemainder total q chunks) chunks dryRun
        hdry (List.range chunks))
  · rw [create_grid, if_neg (not_le.mpr hlh), if_neg (by omega)]
    exact gridLoop_dry none gwG symbol low _ qtyG dryRun hdry pr _
      (fun i hi => hpr i (List.mem_range.mp hi))

/-- **C8** fails as stated: with no client, `run_twap` for total 1000000 in 10
chunks raises `InvalidOperation` (the per-chunk quantity `100000.00000000`
needs 13 digits, beyond the 12-digit context) — the operation fails instead
of returning a `DRY_RUN` result. -/
theorem C8_counterexample :
    create_client none (some "secret") = none ∧
    run_twap none (fun i => .ok i) "BTCUSDT" "BUY" 1000000 10 false = none := by
  exact ⟨rfl, by decide⟩

/-- Witness for `C8_credentials_fallback`: key absent, dry-run flag *not*
set — every strategy still returns its `DRY_RUN` result with no call. -/
theorem C8_witness :
    create_client none (some "secret") = none ∧
    place_market_order none (.ok 5) "BTCUSDT" "BUY" 1 false =
      (.ok (.dict [("status", .str "DRY_RUN"), ("symbol", .str "BTCUSDT"),
                   ("side", .str "BUY"), ("qty", .dec 1)]), []) ∧
    place_limit_order none (.ok 5) "BTCUSDT" "BUY" 1 64000 false =
      (.ok (.dict [("status", .str "DRY_RUN"), ("symbol", .str "BTCUSDT"),
                   ("side", .str "BUY"), ("qty", .dec 1), ("price", .dec 64000)]), []) ∧
    stop_limit_watch_and_place none ⟨fun _ => .ok 64000, fun _ => .ok 5⟩
        "BTCUSDT" "BUY" 1 64000 63900 false 3 =
      .dry [("status", .str "DRY_RUN"), ("symbol", .str "BTCUSDT"), ("side", .str "BUY"),
            ("qty", .dec 1), ("stop", .dec 64000), ("limit", .dec 63900)] ∧
    place_oco none (.ok 1) (.ok 2) "BTCUSDT" "BUY" 1 70000 60000 false =
      (.ok (.dict [("status", .str "DRY_RUN")]), []) ∧
    run_twap none (fun i => .ok i) "BTCUSDT" "BUY" 1 2 false =
      some ((List.range 2).map (fun i =>
        twapDryRec i (twapChunkQty (mkRat 1 2) (twapRemainder 1 (mkRat 1 2) 2) 2 i)), []) ∧
    create_grid none (fun i => .ok i) "BTCUSDT" 1 2 1 1 false =
      ((List.range ((1 : ℤ) + 1).toNat).map (fun i => gridDryRec (mkRat (i + 1) 1) 1),
       [], none) :=
  C8_credentials_fallback none (some "secret") rfl false (.ok 5) (.ok 1) (.ok 2)
    (fun i => .ok i) (fun i => .ok i) ⟨fun _ => .ok 64000, fun _ => .ok 5⟩ 3
    "BTCUSDT" "BUY" 1 64000 70000 60000 64000 63900 1 1 2 (mkRat 1 2) (by decide)
    1 2 1 (by norm_num) (by norm_num) (fun i => mkRat (i + 1) 1)
    (by
      intro i hi
      have h2 : i < 2 := by omega
      interval_cases i <;> decide)

/-! ## C9: the quantity/price validators -/

/-- **C9** (amended): `validate_price` behaves exactly as `validate_quantity`
on every string; strings the `Decimal` constructor rejects raise `ValueError`,
finite parses are accepted exactly when positive, and `-Infinity` is rejected
with `ValueError` — but `Infinity` is *accepted*, and the NaN forms escape as
`decimal.InvalidOperation` rather than a `ValueError`
(`C9_counterexample`). -/
theorem C9_validator_behaviour (s : String) :
    validate_price s = validate_quantity s ∧
    (parseDecimal s = none → validate_quantity s = .valueError) ∧
    (∀ v : ℚ, parseDecimal s = some (.fin v) →
      validate_quantity s = if v ≤ 0 then .valueError else .accepted (.fin v)) ∧
    (parseDecimal s = some .negInf → validate_quantity s = .valueError) ∧
    (parseDecimal s = some .inf → validate_quantity s = .accepted .inf) ∧
    (parseDecimal s = some .nan ∨ parseDecimal s = some .snan →
      validate_quantity s = .invalidOperation) := by
  refine ⟨rfl, ?_, ?_, ?_, ?_, ?_⟩
  · intro h
    simp [validate_quantity, validateDecimalStr, h]
  · intro v h
    simp [validate_quantity, validateDecimalStr, h]
  · intro h
    simp [validate_quantity, validateDecimalStr, h]
  · intro h
    simp [validate_quantity, validateDecimalStr, h]
  · rintro (h | h) <;> simp [validate_quantity, validateDecimalStr, h]

/-- **C9** fails as stated: `"NaN"` is a non-numeric string but escapes as an
uncaught `decimal.InvalidOperation` (from the `d <= 0` comparison) instead of
the validators' `ValueError`, and `"Infinity"`, which denotes no positive
decimal number, is accepted by both validators. -/
theorem C9_counterexample :
    validate_quantity "NaN" = .invalidOperation ∧
    validate_quantity "Infinity" = .accepted .inf ∧
    validate_price "Infinity" = .accepted .inf := by
  refine ⟨by decide, by decide, by decide⟩

/-- Witness for `C9_validator_behaviour` at `"-1"`: both validators reject a
negative quantity with `ValueError`. -/
theorem C9_witness :
    validate_price "-1" = validate_quantity "-1" ∧
    validate_quantity "-1" = .valueError := by
  have h := C9_validator_behaviour "-1"
  refine ⟨h.1, ?_⟩
  have hp : parseDecimal "-1" = some (.fin (mkRat (-1) 1)) := by decide
  rw [h.2.2.1 (mkRat (-1) 1) hp]
  decide

end BinanceBot
